import Mathlib

/-!
Shallow embedding of the SAT scoring utility `src/utils/satScoring.js` of the
SATBackendProject repository, together with the branch-decision step of
`Submission.completeModule` (`src/models/Submission.js`).

Conventions: JavaScript numbers carrying percentages are modelled as rationals
(`ℚ`); raw counts and question counts are naturals; each score-conversion table
(a JS object literal keyed by integer raw counts) is a function `ℕ → Option ℕ`;
property lookup `scoreTable[rawScore]` on a possibly-negative index is
`tableAt`; the JS `x || 200` default is `jsOrNat` (which, like `||`, also
replaces a zero value); `throw new Error(...)` is `Except.error`;
`Math.round` is `jsRound` (round half toward positive infinity).
-/

namespace SATScoring

/-- The two Module 2 difficulty levels, the strings "hard" and "easy" in the
source. -/
inductive Difficulty where
  | hard
  | easy
deriving DecidableEq, Repr

/-- The hard branch of RW_SCORE_TABLE (satScoring.js lines 20-32). -/
def rwHardTable : ℕ → Option ℕ
  | 54 => some 800
  | 53 => some 790
  | 52 => some 770
  | 51 => some 760
  | 50 => some 750
  | 49 => some 740
  | 48 => some 730
  | 47 => some 710
  | 46 => some 700
  | 45 => some 690
  | 44 => some 680
  | 43 => some 670
  | 42 => some 660
  | 41 => some 650
  | 40 => some 640
  | 39 => some 630
  | 38 => some 620
  | 37 => some 610
  | 36 => some 600
  | 35 => some 590
  | 34 => some 580
  | 33 => some 570
  | 32 => some 560
  | 31 => some 550
  | 30 => some 540
  | 29 => some 530
  | 28 => some 520
  | 27 => some 510
  | 26 => some 500
  | 25 => some 490
  | 24 => some 480
  | 23 => some 470
  | 22 => some 460
  | 21 => some 450
  | 20 => some 440
  | 19 => some 430
  | 18 => some 420
  | 17 => some 410
  | 16 => some 400
  | 15 => some 390
  | 14 => some 380
  | 13 => some 370
  | 12 => some 360
  | 11 => some 350
  | 10 => some 340
  | 9 => some 330
  | 8 => some 320
  | 7 => some 310
  | 6 => some 300
  | 5 => some 290
  | 4 => some 280
  | 3 => some 270
  | 2 => some 260
  | 1 => some 240
  | 0 => some 200
  | _ => none

/-- The easy branch of RW_SCORE_TABLE (satScoring.js lines 34-46). -/
def rwEasyTable : ℕ → Option ℕ
  | 54 => some 700
  | 53 => some 690
  | 52 => some 680
  | 51 => some 670
  | 50 => some 660
  | 49 => some 650
  | 48 => some 640
  | 47 => some 630
  | 46 => some 620
  | 45 => some 610
  | 44 => some 600
  | 43 => some 590
  | 42 => some 580
  | 41 => some 570
  | 40 => some 560
  | 39 => some 550
  | 38 => some 540
  | 37 => some 530
  | 36 => some 520
  | 35 => some 510
  | 34 => some 500
  | 33 => some 490
  | 32 => some 480
  | 31 => some 470
  | 30 => some 460
  | 29 => some 450
  | 28 => some 440
  | 27 => some 430
  | 26 => some 420
  | 25 => some 410
  | 24 => some 400
  | 23 => some 390
  | 22 => some 380
  | 21 => some 370
  | 20 => some 360
  | 19 => some 350
  | 18 => some 340
  | 17 => some 330
  | 16 => some 320
  | 15 => some 310
  | 14 => some 300
  | 13 => some 290
  | 12 => some 280
  | 11 => some 270
  | 10 => some 260
  | 9 => some 250
  | 8 => some 240
  | 7 => some 230
  | 6 => some 220
  | 5 => some 210
  | 4 => some 200
  | 3 => some 200
  | 2 => some 200
  | 1 => some 200
  | 0 => some 200
  | _ => none

/-- The hard branch of MATH_SCORE_TABLE (satScoring.js lines 56-66). -/
def mathHardTable : ℕ → Option ℕ
  | 44 => some 800
  | 43 => some 780
  | 42 => some 760
  | 41 => some 740
  | 40 => some 720
  | 39 => some 710
  | 38 => some 700
  | 37 => some 690
  | 36 => some 680
  | 35 => some 670
  | 34 => some 660
  | 33 => some 650
  | 32 => some 640
  | 31 => some 630
  | 30 => some 620
  | 29 => some 610
  | 28 => some 600
  | 27 => some 590
  | 26 => some 580
  | 25 => some 570
  | 24 => some 560
  | 23 => some 550
  | 22 => some 540
  | 21 => some 530
  | 20 => some 520
  | 19 => some 510
  | 18 => some 500
  | 17 => some 490
  | 16 => some 480
  | 15 => some 470
  | 14 => some 460
  | 13 => some 450
  | 12 => some 440
  | 11 => some 430
  | 10 => some 420
  | 9 => some 410
  | 8 => some 400
  | 7 => some 390
  | 6 => some 370
  | 5 => some 350
  | 4 => some 330
  | 3 => some 310
  | 2 => some 280
  | 1 => some 250
  | 0 => some 200
  | _ => none

/-- The easy branch of MATH_SCORE_TABLE (satScoring.js lines 68-78). -/
def mathEasyTable : ℕ → Option ℕ
  | 44 => some 680
  | 43 => some 670
  | 42 => some 660
  | 41 => some 650
  | 40 => some 640
  | 39 => some 630
  | 38 => some 620
  | 37 => some 610
  | 36 => some 600
  | 35 => some 590
  | 34 => some 580
  | 33 => some 570
  | 32 => some 560
  | 31 => some 550
  | 30 => some 540
  | 29 => some 530
  | 28 => some 520
  | 27 => some 510
  | 26 => some 500
  | 25 => some 490
  | 24 => some 480
  | 23 => some 470
  | 22 => some 460
  | 21 => some 450
  | 20 => some 440
  | 19 => some 430
  | 18 => some 420
  | 17 => some 410
  | 16 => some 400
  | 15 => some 390
  | 14 => some 380
  | 13 => some 370
  | 12 => some 360
  | 11 => some 350
  | 10 => some 340
  | 9 => some 330
  | 8 => some 320
  | 7 => some 310
  | 6 => some 300
  | 5 => some 290
  | 4 => some 280
  | 3 => some 270
  | 2 => some 260
  | 1 => some 240
  | 0 => some 200
  | _ => none

/-- `RW_SCORE_TABLE` of satScoring.js (lines 18-47): the object with a `hard`
and an `easy` sub-table. -/
def RW_SCORE_TABLE : Difficulty → ℕ → Option ℕ
  | Difficulty.hard => rwHardTable
  | Difficulty.easy => rwEasyTable

/-- `MATH_SCORE_TABLE` of satScoring.js (lines 54-79). -/
def MATH_SCORE_TABLE : Difficulty → ℕ → Option ℕ
  | Difficulty.hard => mathHardTable
  | Difficulty.easy => mathEasyTable

/-- JS property lookup `scoreTable[rawScore]` where `rawScore` is any integer:
keys of the table objects are the naturals that appear literally, so any
negative index is absent. -/
def tableAt (t : ℕ → Option ℕ) (r : ℤ) : Option ℕ :=
  if r < 0 then none else t r.toNat

/-- JS `x || d` on an optional number: `undefined` (here `none`) and the falsy
value `0` both fall back to the default. -/
def jsOrNat : Option ℕ → ℕ → ℕ
  | some v, d => if v = 0 then d else v
  | none, d => d

/-- `determineModule2Difficulty` (satScoring.js lines 87-89):
`module1Percentage >= 70 ? 'hard' : 'easy'`. -/
def determineModule2Difficulty (module1Percentage : ℚ) : Difficulty :=
  if module1Percentage ≥ 70 then Difficulty.hard else Difficulty.easy

/-- `calculateSectionScore` (satScoring.js lines 98-113): selects the
conversion table by subject (throwing on an unrecognized subject), then
returns `scoreTable[rawScore] || 200`. -/
def calculateSectionScore (rawScore : ℤ) (subject : String)
    (module2Difficulty : Difficulty) : Except String ℕ :=
  if subject = "Reading and Writing" then
    Except.ok (jsOrNat (tableAt (RW_SCORE_TABLE module2Difficulty) rawScore) 200)
  else if subject = "Math" then
    Except.ok (jsOrNat (tableAt (MATH_SCORE_TABLE module2Difficulty) rawScore) 200)
  else
    Except.error ("Invalid subject: " ++ subject)

/-- JS `Math.round`: round half toward positive infinity. -/
def jsRound (q : ℚ) : ℤ :=
  ⌊q + 1 / 2⌋

/-- `Math.round(percentage * 100) / 100` (satScoring.js line 130): round to
two decimal places. -/
def round2 (q : ℚ) : ℚ :=
  (jsRound (q * 100) : ℚ) / 100

/-- The object returned by `calculateModuleScore`: `determines_next_difficulty`
is only present (`some`) when the module number is 1. -/
structure ModuleScoreData where
  raw_score : ℕ
  total_questions : ℕ
  percentage : ℚ
  module_number : ℕ
  determines_next_difficulty : Option Difficulty
deriving DecidableEq, Repr

/-- `calculateModuleScore` (satScoring.js lines 124-140). The stored
`percentage` is rounded to two decimals, while `determines_next_difficulty`
is computed from the unrounded local `percentage`; `module1Percentage` is a
parameter of the source function that its body never reads. -/
def calculateModuleScore (correctAnswers totalQuestions : ℕ) (subject : String)
    (moduleNumber : ℕ) (module1Percentage : Option ℚ) : ModuleScoreData :=
  let percentage : ℚ :=
    if totalQuestions > 0 then
      ((correctAnswers : ℚ) / (totalQuestions : ℚ)) * 100
    else 0
  { raw_score := correctAnswers
    total_questions := totalQuestions
    percentage := round2 percentage
    module_number := moduleNumber
    determines_next_difficulty :=
      if moduleNumber = 1 then some (determineModule2Difficulty percentage)
      else none }

/-- The object returned by `calculateSectionFinalScore`. -/
structure SectionFinalScore where
  subject : String
  raw_score : ℕ
  total_questions : ℕ
  percentage : ℚ
  scaled_score : ℕ
  module_2_difficulty : Difficulty
  module_scores : ModuleScoreData × ModuleScoreData
deriving DecidableEq, Repr

/-- `calculateSectionFinalScore` (satScoring.js lines 149-169): recomputes the
Module 2 difficulty from `module1Score.percentage`, then converts the combined
raw score; the `throw` inside `calculateSectionScore` propagates. -/
def calculateSectionFinalScore (module1Score module2Score : ModuleScoreData)
    (subject : String) : Except String SectionFinalScore :=
  let totalRawScore := module1Score.raw_score + module2Score.raw_score
  let totalQuestions := module1Score.total_questions + module2Score.total_questions
  let overallPercentage : ℚ :=
    if totalQuestions > 0 then
      ((totalRawScore : ℚ) / (totalQuestions : ℚ)) * 100
    else 0
  let module2Difficulty := determineModule2Difficulty module1Score.percentage
  (calculateSectionScore (totalRawScore : ℤ) subject module2Difficulty).map
    fun scaledScore =>
      { subject := subject
        raw_score := totalRawScore
        total_questions := totalQuestions
        percentage := round2 overallPercentage
        scaled_score := scaledScore
        module_2_difficulty := module2Difficulty
        module_scores := (module1Score, module2Score) }

/-- The report returned by `calculateTotalSATScore`; the `score_range` object
is flattened into its two fields. -/
structure TotalSATScore where
  total_score : ℕ
  reading_writing : SectionFinalScore
  math : SectionFinalScore
  score_range_min : ℕ
  score_range_max : ℕ
deriving DecidableEq, Repr

/-- `calculateTotalSATScore` (satScoring.js lines 177-189). -/
def calculateTotalSATScore (readingWritingSection mathSection : SectionFinalScore) :
    TotalSATScore :=
  { total_score := readingWritingSection.scaled_score + mathSection.scaled_score
    reading_writing := readingWritingSection
    math := mathSection
    score_range_min := 400
    score_range_max := 1600 }

/-- The branch-decision step of `Submission.completeModule`
(src/models/Submission.js line 374): after grading a completed module with
`calculateModuleScore`, the next module difficulty is
`determineModule2Difficulty(moduleScore.percentage)`. -/
def completeModuleBranchDecision (moduleScore : ModuleScoreData) : Difficulty :=
  determineModule2Difficulty moduleScore.percentage

/-- A concrete SectionFinalScore value, used to instantiate theorems at
explicit inputs. -/
def sampleSectionScore (scaled : ℕ) : SectionFinalScore :=
  { subject := "Math"
    raw_score := 0
    total_questions := 0
    percentage := 0
    scaled_score := scaled
    module_2_difficulty := Difficulty.easy
    module_scores := (calculateModuleScore 0 0 "Math" 1 none,
                      calculateModuleScore 0 0 "Math" 2 none) }

/-- Unfolding of `calculateSectionScore` on the recognized subject
"Reading and Writing". -/
lemma calculateSectionScore_rw (r : ℤ) (d : Difficulty) :
    calculateSectionScore r "Reading and Writing" d =
      Except.ok (jsOrNat (tableAt (RW_SCORE_TABLE d) r) 200) := rfl

/-- Unfolding of `calculateSectionScore` on the recognized subject "Math". -/
lemma calculateSectionScore_math (r : ℤ) (d : Difficulty) :
    calculateSectionScore r "Math" d =
      Except.ok (jsOrNat (tableAt (MATH_SCORE_TABLE d) r) 200) := rfl

/-- Looking up a nonnegative index in a table. -/
lemma tableAt_natCast (t : ℕ → Option ℕ) (r : ℕ) : tableAt t (r : ℤ) = t r := by
  unfold tableAt
  rw [if_neg (by omega), Int.toNat_natCast]

/-- A successful table lookup comes from the underlying table. -/
lemma tableAt_some {t : ℕ → Option ℕ} {r : ℤ} {v : ℕ} (h : tableAt t r = some v) :
    t r.toNat = some v := by
  unfold tableAt at h
  split at h
  · exact Option.noConfusion h
  · exact h

/-- Every value of the hard Reading and Writing table is nonzero. -/
lemma rwHardTable_ne_zero (n v : ℕ) (h : rwHardTable n = some v) : v ≠ 0 := by
  unfold rwHardTable at h
  split at h <;> simp at h <;> omega

/-- Every value of the easy Reading and Writing table is nonzero. -/
lemma rwEasyTable_ne_zero (n v : ℕ) (h : rwEasyTable n = some v) : v ≠ 0 := by
  unfold rwEasyTable at h
  split at h <;> simp at h <;> omega

/-- Every value of the hard Math table is nonzero. -/
lemma mathHardTable_ne_zero (n v : ℕ) (h : mathHardTable n = some v) : v ≠ 0 := by
  unfold mathHardTable at h
  split at h <;> simp at h <;> omega

/-- Every value of the easy Math table is nonzero. -/
lemma mathEasyTable_ne_zero (n v : ℕ) (h : mathEasyTable n = some v) : v ≠ 0 := by
  unfold mathEasyTable at h
  split at h <;> simp at h <;> omega

/-- Every value of `RW_SCORE_TABLE` is nonzero, so the JS `|| 200` default
never rewrites a present entry. -/
lemma RW_value_ne_zero (d : Difficulty) (n v : ℕ) (h : RW_SCORE_TABLE d n = some v) :
    v ≠ 0 := by
  cases d
  · exact rwHardTable_ne_zero n v h
  · exact rwEasyTable_ne_zero n v h

/-- Every value of `MATH_SCORE_TABLE` is nonzero. -/
lemma MATH_value_ne_zero (d : Difficulty) (n v : ℕ) (h : MATH_SCORE_TABLE d n = some v) :
    v ≠ 0 := by
  cases d
  · exact mathHardTable_ne_zero n v h
  · exact mathEasyTable_ne_zero n v h

/-- Characterization of `jsRound` as the unique integer in the half-open
rounding window. -/
lemma jsRound_eq_iff (q : ℚ) (z : ℤ) :
    jsRound q = z ↔ (z : ℚ) ≤ q + 1 / 2 ∧ q + 1 / 2 < z + 1 := by
  unfold jsRound
  exact Int.floor_eq_iff

/-- Evaluation rule for `round2`. -/
lemma round2_of_bounds {q : ℚ} {z : ℤ} (h1 : (z : ℚ) ≤ q * 100 + 1 / 2)
    (h2 : q * 100 + 1 / 2 < z + 1) : round2 q = (z : ℚ) / 100 := by
  unfold round2
  rw [(jsRound_eq_iff _ z).mpr ⟨h1, h2⟩]

/-- Rounding to two decimals fixes zero. -/
lemma round2_zero : round2 0 = 0 := by
  rw [round2_of_bounds (z := 0) (by norm_num) (by norm_num)]
  norm_num

/-- The rounded percentage clears the 70 threshold exactly when the raw
percentage is at least 69.995. -/
lemma round2_ge70_iff (q : ℚ) : 70 ≤ round2 q ↔ 13999 / 200 ≤ q := by
  unfold round2 jsRound
  rw [le_div_iff₀ (by norm_num : (0 : ℚ) < 100)]
  rw [show (70 : ℚ) * 100 = ((7000 : ℤ) : ℚ) by norm_num]
  rw [Int.cast_le, Int.le_floor]
  constructor
  · intro h
    push_cast at h
    linarith
  · intro h
    push_cast
    linarith

/-- Monotonicity of the Reading and Writing tables after the JS default. -/
lemma jsOrNat_rw_mono (d : Difficulty) :
    ∀ r2, r2 < 55 → ∀ r1, r1 < r2 →
      jsOrNat (RW_SCORE_TABLE d r1) 200 ≤ jsOrNat (RW_SCORE_TABLE d r2) 200 := by
  cases d <;> decide

/-- Monotonicity of the Math tables after the JS default. -/
lemma jsOrNat_math_mono (d : Difficulty) :
    ∀ r2, r2 < 45 → ∀ r1, r1 < r2 →
      jsOrNat (MATH_SCORE_TABLE d r1) 200 ≤ jsOrNat (MATH_SCORE_TABLE d r2) 200 := by
  cases d <;> decide

/-- The hard Reading and Writing table dominates the easy one, strictly from
raw count 1 on. -/
lemma jsOrNat_rw_hard_ge_easy :
    ∀ r, r < 55 →
      jsOrNat (RW_SCORE_TABLE Difficulty.easy r) 200 ≤
        jsOrNat (RW_SCORE_TABLE Difficulty.hard r) 200 ∧
      (1 ≤ r →
        jsOrNat (RW_SCORE_TABLE Difficulty.easy r) 200 <
          jsOrNat (RW_SCORE_TABLE Difficulty.hard r) 200) := by
  decide

/-- The hard Math table dominates the easy one, strictly from raw count 1 on. -/
lemma jsOrNat_math_hard_ge_easy :
    ∀ r, r < 45 →
      jsOrNat (MATH_SCORE_TABLE Difficulty.easy r) 200 ≤
        jsOrNat (MATH_SCORE_TABLE Difficulty.hard r) 200 ∧
      (1 ≤ r →
        jsOrNat (MATH_SCORE_TABLE Difficulty.easy r) 200 <
          jsOrNat (MATH_SCORE_TABLE Difficulty.hard r) 200) := by
  decide

/-- C1: `calculateSectionScore` raises exactly when the subject is neither
"Reading and Writing" nor "Math"; for a recognized subject it never raises
for any integer raw count, returning the selected table entry when present
and the floor value 200 when the raw count is absent from the table. -/
theorem calculateSectionScore_subject_spec (r : ℤ) (s : String) (d : Difficulty) :
    ((∃ e, calculateSectionScore r s d = Except.error e) ↔
      ¬(s = "Reading and Writing" ∨ s = "Math")) ∧
    (s = "Reading and Writing" →
      (∀ v, tableAt (RW_SCORE_TABLE d) r = some v →
        calculateSectionScore r s d = Except.ok v) ∧
      (tableAt (RW_SCORE_TABLE d) r = none →
        calculateSectionScore r s d = Except.ok 200)) ∧
    (s = "Math" →
      (∀ v, tableAt (MATH_SCORE_TABLE d) r = some v →
        calculateSectionScore r s d = Except.ok v) ∧
      (tableAt (MATH_SCORE_TABLE d) r = none →
        calculateSectionScore r s d = Except.ok 200)) := by
  refine ⟨?_, ?_, ?_⟩
  · unfold calculateSectionScore
    split_ifs with h1 h2 <;> simp_all
  · rintro rfl
    refine ⟨fun v hv => ?_, fun hn => ?_⟩
    · have hne : v ≠ 0 := RW_value_ne_zero d _ _ (tableAt_some hv)
      rw [calculateSectionScore_rw, hv]
      simp [jsOrNat, hne]
    · rw [calculateSectionScore_rw, hn]
      rfl
  · rintro rfl
    refine ⟨fun v hv => ?_, fun hn => ?_⟩
    · have hne : v ≠ 0 := MATH_value_ne_zero d _ _ (tableAt_some hv)
      rw [calculateSectionScore_math, hv]
      simp [jsOrNat, hne]
    · rw [calculateSectionScore_math, hn]
      rfl

/-- Witness for C1: a raw count of 5 on the hard Math table converts to 350,
and a negative raw count falls back to the floor 200. -/
theorem calculateSectionScore_subject_spec_witness :
    calculateSectionScore 5 "Math" Difficulty.hard = Except.ok 350 ∧
    calculateSectionScore (-3) "Math" Difficulty.hard = Except.ok 200 := by
  constructor
  · exact ((calculateSectionScore_subject_spec 5 "Math" Difficulty.hard).2.2 rfl).1 350 rfl
  · exact ((calculateSectionScore_subject_spec (-3) "Math" Difficulty.hard).2.2 rfl).2 rfl

/-- C2: `determineModule2Difficulty` returns hard exactly when the percentage
is at least the configured threshold 70, and easy otherwise; in particular 70
yields hard and 70 - 0.01 yields easy. -/
theorem determineModule2Difficulty_threshold (p : ℚ) :
    (determineModule2Difficulty p = Difficulty.hard ↔ 70 ≤ p) ∧
    (determineModule2Difficulty p = Difficulty.easy ↔ p < 70) ∧
    determineModule2Difficulty 70 = Difficulty.hard ∧
    determineModule2Difficulty (70 - 0.01) = Difficulty.easy := by
  refine ⟨?_, ?_, ?_, ?_⟩ <;> unfold determineModule2Difficulty
  · split_ifs with h <;> simp_all
  · split_ifs with h <;> simp_all
  · norm_num
  · norm_num

/-- Witness for C2: evaluation at the threshold itself. -/
theorem determineModule2Difficulty_threshold_witness :
    determineModule2Difficulty 70 = Difficulty.hard :=
  (determineModule2Difficulty_threshold 70).2.2.1

/-- C3 counterexample: at the stage-1 percentage 65 — which lies in
[60, 70), where the claim asserts the two paths differ — the branch decision
of the submission-grading path (`Submission.completeModule`) and the scoring
utility's `determineModule2Difficulty` agree: both return easy. -/
theorem submission_branch_threshold_cex :
    (60 : ℚ) ≤ 65 ∧ (65 : ℚ) < 70 ∧
    completeModuleBranchDecision (calculateModuleScore 13 20 "Math" 1 none) =
      Difficulty.easy ∧
    determineModule2Difficulty 65 = Difficulty.easy := by
  refine ⟨by norm_num, by norm_num, ?_, by norm_num [determineModule2Difficulty]⟩
  show determineModule2Difficulty (calculateModuleScore 13 20 "Math" 1 none).percentage =
    Difficulty.easy
  have hp : (calculateModuleScore 13 20 "Math" 1 none).percentage = 65 := by
    show round2 (if (20 : ℕ) > 0 then ((13 : ℕ) : ℚ) / ((20 : ℕ) : ℚ) * 100 else 0) = 65
    rw [if_pos (by norm_num)]
    rw [round2_of_bounds (z := 6500) (by norm_num) (by norm_num)]
    norm_num
  rw [hp]
  norm_num [determineModule2Difficulty]

/-- C3 amended: the submission-grading path calls the same
`determineModule2Difficulty` as the scoring utility, so both use the
threshold 70; for every stage-1 percentage in [60, 70) both paths decide the
reduced-difficulty branch, and the two decisions never differ. -/
theorem submission_branch_agrees_below_threshold (m : ModuleScoreData)
    (h1 : 60 ≤ m.percentage) (h2 : m.percentage < 70) :
    completeModuleBranchDecision m = Difficulty.easy ∧
    determineModule2Difficulty m.percentage = Difficulty.easy ∧
    completeModuleBranchDecision m = determineModule2Difficulty m.percentage := by
  unfold completeModuleBranchDecision determineModule2Difficulty
  rw [if_neg (not_le.mpr h2)]
  exact ⟨rfl, rfl, rfl⟩

/-- Witness for the amended C3 at a stored percentage of 65. -/
theorem submission_branch_agrees_below_threshold_witness :
    completeModuleBranchDecision
      { raw_score := 13, total_questions := 20, percentage := 65,
        module_number := 1, determines_next_difficulty := some Difficulty.easy } =
      Difficulty.easy :=
  (submission_branch_agrees_below_threshold
    { raw_score := 13, total_questions := 20, percentage := 65,
      module_number := 1, determines_next_difficulty := some Difficulty.easy }
    (by norm_num) (by norm_num)).1

/-- C4: for each subject and branch outcome, `calculateSectionScore` is
monotone non-decreasing over the selected table's domain (raw counts up to 54
for Reading and Writing, up to 44 for Math). -/
theorem conversion_tables_monotone (d : Difficulty) :
    (∀ r2 : ℕ, r2 < 55 → ∀ r1 : ℕ, r1 < r2 → ∀ v1 v2 : ℕ,
      calculateSectionScore (r1 : ℤ) "Reading and Writing" d = Except.ok v1 →
      calculateSectionScore (r2 : ℤ) "Reading and Writing" d = Except.ok v2 →
      v1 ≤ v2) ∧
    (∀ r2 : ℕ, r2 < 45 → ∀ r1 : ℕ, r1 < r2 → ∀ v1 v2 : ℕ,
      calculateSectionScore (r1 : ℤ) "Math" d = Except.ok v1 →
      calculateSectionScore (r2 : ℤ) "Math" d = Except.ok v2 →
      v1 ≤ v2) := by
  constructor
  · intro r2 h2 r1 h1 v1 v2 hv1 hv2
    rw [calculateSectionScore_rw, tableAt_natCast, Except.ok.injEq] at hv1 hv2
    subst hv1
    subst hv2
    exact jsOrNat_rw_mono d r2 h2 r1 h1
  · intro r2 h2 r1 h1 v1 v2 hv1 hv2
    rw [calculateSectionScore_math, tableAt_natCast, Except.ok.injEq] at hv1 hv2
    subst hv1
    subst hv2
    exact jsOrNat_math_mono d r2 h2 r1 h1

/-- Witness for C4: raw 53 converts below raw 54 on the hard Reading and
Writing table. -/
theorem conversion_tables_monotone_witness :
    calculateSectionScore ((53 : ℕ) : ℤ) "Reading and Writing" Difficulty.hard =
      Except.ok 790 ∧
    calculateSectionScore ((54 : ℕ) : ℤ) "Reading and Writing" Difficulty.hard =
      Except.ok 800 ∧
    (790 : ℕ) ≤ 800 :=
  ⟨rfl, rfl,
    (conversion_tables_monotone Difficulty.hard).1 54 (by norm_num) 53 (by norm_num)
      790 800 rfl rfl⟩

/-- C5 counterexample: at raw count 0 the hard and easy Math tables both
convert to the floor 200, so the increased-difficulty score is not strictly
higher there. -/
theorem hard_easy_equal_at_zero_cex :
    calculateSectionScore 0 "Math" Difficulty.hard = Except.ok 200 ∧
    calculateSectionScore 0 "Math" Difficulty.easy = Except.ok 200 ∧
    ¬(200 : ℕ) < 200 :=
  ⟨rfl, rfl, by omega⟩

/-- C5 amended: for every subject and raw count in the shared table domain,
the increased-difficulty conversion is at least the reduced-difficulty one,
and strictly higher for every raw count from 1 on; at raw count 0 both tables
give the floor 200. -/
theorem hard_table_ge_easy_table :
    (∀ r : ℕ, r < 55 → ∀ vh ve : ℕ,
      calculateSectionScore (r : ℤ) "Reading and Writing" Difficulty.hard =
        Except.ok vh →
      calculateSectionScore (r : ℤ) "Reading and Writing" Difficulty.easy =
        Except.ok ve →
      ve ≤ vh ∧ (1 ≤ r → ve < vh)) ∧
    (∀ r : ℕ, r < 45 → ∀ vh ve : ℕ,
      calculateSectionScore (r : ℤ) "Math" Difficulty.hard = Except.ok vh →
      calculateSectionScore (r : ℤ) "Math" Difficulty.easy = Except.ok ve →
      ve ≤ vh ∧ (1 ≤ r → ve < vh)) := by
  constructor
  · intro r hr vh ve hvh hve
    rw [calculateSectionScore_rw, tableAt_natCast, Except.ok.injEq] at hvh hve
    subst hvh
    subst hve
    exact jsOrNat_rw_hard_ge_easy r hr
  · intro r hr vh ve hvh hve
    rw [calculateSectionScore_math, tableAt_natCast, Except.ok.injEq] at hvh hve
    subst hvh
    subst hve
    exact jsOrNat_math_hard_ge_easy r hr

/-- Witness for the amended C5: at raw count 1 the hard Math table strictly
exceeds the easy one (250 versus 240). -/
theorem hard_table_ge_easy_table_witness :
    calculateSectionScore ((1 : ℕ) : ℤ) "Math" Difficulty.hard = Except.ok 250 ∧
    calculateSectionScore ((1 : ℕ) : ℤ) "Math" Difficulty.easy = Except.ok 240 ∧
    (240 : ℕ) < 250 :=
  ⟨rfl, rfl, (hard_table_ge_easy_table.2 1 (by norm_num) 250 240 rfl rfl).2 (by norm_num)⟩

/-- C6: the percentage stored by `calculateModuleScore` is the raw ratio
times 100 rounded to two decimal places, and exactly 0 when the module has no
questions (no division-by-zero error); in particular 0 of 0 gives 0 and 1 of
3 gives 33.33. -/
theorem calculateModuleScore_percentage_spec (c t : ℕ) (s : String) (m : ℕ)
    (p : Option ℚ) :
    (t = 0 → (calculateModuleScore c t s m p).percentage = 0) ∧
    (t ≠ 0 →
      (calculateModuleScore c t s m p).percentage =
        round2 (((c : ℚ) / (t : ℚ)) * 100)) ∧
    (calculateModuleScore 0 0 s 1 p).percentage = 0 ∧
    (calculateModuleScore 1 3 s 1 p).percentage = 33.33 := by
  refine ⟨?_, ?_, ?_, ?_⟩
  · rintro rfl
    show round2 (if (0 : ℕ) > 0 then ((c : ℕ) : ℚ) / ((0 : ℕ) : ℚ) * 100 else 0) = 0
    rw [if_neg (by omega)]
    exact round2_zero
  · intro ht
    show round2 (if t > 0 then ((c : ℕ) : ℚ) / ((t : ℕ) : ℚ) * 100 else 0) =
      round2 (((c : ℚ) / (t : ℚ)) * 100)
    rw [if_pos (Nat.pos_of_ne_zero ht)]
  · show round2 (if (0 : ℕ) > 0 then ((0 : ℕ) : ℚ) / ((0 : ℕ) : ℚ) * 100 else 0) = 0
    rw [if_neg (by omega)]
    exact round2_zero
  · show round2 (if (3 : ℕ) > 0 then ((1 : ℕ) : ℚ) / ((3 : ℕ) : ℚ) * 100 else 0) = 33.33
    rw [if_pos (by omega)]
    rw [round2_of_bounds (z := 3333) (by push_cast; norm_num) (by push_cast; norm_num)]
    norm_num

/-- Witness for C6 at 1 of 3 questions and at 0 of 0 questions. -/
theorem calculateModuleScore_percentage_spec_witness :
    ((calculateModuleScore 1 3 "Math" 1 none).percentage =
      round2 (((1 : ℚ) / (3 : ℚ)) * 100)) ∧
    ((calculateModuleScore 0 0 "Math" 1 none).percentage = 0) := by
  constructor
  · have h := (calculateModuleScore_percentage_spec 1 3 "Math" 1 none).2.1 (by omega)
    exact_mod_cast h
  · exact (calculateModuleScore_percentage_spec 0 0 "Math" 1 none).1 rfl

/-- C7 counterexample: at 1402 correct of 2003 questions the unrounded
stage-1 percentage is 69.9950… (below the threshold), so the stored
`determines_next_difficulty` is easy, while `determineModule2Difficulty`
applied to the StageResult's own rounded percentage field (70.00) is hard. -/
theorem determines_branch_rounding_cex :
    (calculateModuleScore 1402 2003 "Math" 1 none).determines_next_difficulty =
      some Difficulty.easy ∧
    determineModule2Difficulty
      ((calculateModuleScore 1402 2003 "Math" 1 none).percentage) =
      Difficulty.hard := by
  constructor
  · show (if (1 : ℕ) = 1 then
        some (determineModule2Difficulty
          (if (2003 : ℕ) > 0 then ((1402 : ℕ) : ℚ) / ((2003 : ℕ) : ℚ) * 100 else 0))
      else none) = some Difficulty.easy
    rw [if_pos rfl, if_pos (by omega)]
    unfold determineModule2Difficulty
    rw [if_neg (by push_cast; norm_num)]
  · show determineModule2Difficulty
      (round2 (if (2003 : ℕ) > 0 then ((1402 : ℕ) : ℚ) / ((2003 : ℕ) : ℚ) * 100 else 0)) =
      Difficulty.hard
    rw [if_pos (by omega)]
    rw [round2_of_bounds (z := 7000) (by push_cast; norm_num) (by push_cast; norm_num)]
    unfold determineModule2Difficulty
    rw [if_pos (by norm_num)]

/-- C7 amended: `determines_next_difficulty` is computed from the unrounded
percentage, so the claimed equality with `decideBranch` of the StageResult's
own rounded percentage field holds whenever `totalItems ≤ 2000` (in
particular for every real module size), though not for all inputs. -/
theorem determines_branch_of_rounded_small_total (c t : ℕ) (s : String)
    (p : Option ℚ) (ht : t ≤ 2000) :
    (calculateModuleScore c t s 1 p).determines_next_difficulty =
      some (determineModule2Difficulty
        ((calculateModuleScore c t s 1 p).percentage)) := by
  show (if (1 : ℕ) = 1 then
      some (determineModule2Difficulty
        (if t > 0 then ((c : ℕ) : ℚ) / ((t : ℕ) : ℚ) * 100 else 0))
    else none) =
    some (determineModule2Difficulty
      (round2 (if t > 0 then ((c : ℕ) : ℚ) / ((t : ℕ) : ℚ) * 100 else 0)))
  rw [if_pos rfl, Option.some.injEq]
  rcases Nat.eq_zero_or_pos t with rfl | htpos
  · rw [if_neg (by omega), round2_zero]
  · rw [if_pos htpos]
    have hiff : 70 ≤ ((c : ℚ) / (t : ℚ)) * 100 ↔
        70 ≤ round2 (((c : ℚ) / (t : ℚ)) * 100) := by
      rw [round2_ge70_iff]
      have ht0 : (0 : ℚ) < (t : ℚ) := by exact_mod_cast htpos
      rw [div_mul_eq_mul_div, le_div_iff₀ ht0, le_div_iff₀ ht0]
      constructor
      · intro hh
        nlinarith
      · intro hh
        have hnat : 13999 * t ≤ c * 100 * 200 := by exact_mod_cast (by linarith : (13999 : ℚ) * t ≤ (c : ℚ) * 100 * 200)
        have h5 : 7 * t ≤ 10 * c + 1 := by omega
        have hgoal : 70 * t ≤ c * 100 := by omega
        exact_mod_cast hgoal
    unfold determineModule2Difficulty
    exact if_congr hiff rfl rfl

/-- Witness for the amended C7 at 14 correct of 20 questions. -/
theorem determines_branch_of_rounded_small_total_witness :
    (calculateModuleScore 14 20 "Math" 1 none).determines_next_difficulty =
      some (determineModule2Difficulty
        ((calculateModuleScore 14 20 "Math" 1 none).percentage)) :=
  determines_branch_of_rounded_small_total 14 20 "Math" none (by omega)

/-- C8: for a valid subject, `calculateSectionFinalScore` succeeds with a
branch outcome recomputed from the stage-1 percentage field (whatever the
stored `determines_next_difficulty` was), and its scaled score is the
conversion of the combined raw count under that recomputed outcome. -/
theorem calculateSectionFinalScore_recomputes_branch (m1 m2 : ModuleScoreData)
    (s : String) (hs : s = "Reading and Writing" ∨ s = "Math") :
    ∃ sec, calculateSectionFinalScore m1 m2 s = Except.ok sec ∧
      sec.module_2_difficulty = determineModule2Difficulty m1.percentage ∧
      calculateSectionScore ((m1.raw_score + m2.raw_score : ℕ) : ℤ) s
        sec.module_2_difficulty = Except.ok sec.scaled_score := by
  rcases hs with rfl | rfl
  · exact ⟨_, rfl, rfl, rfl⟩
  · exact ⟨_, rfl, rfl, rfl⟩

/-- Witness for C8 on a concrete Math section whose stage-1 module stored an
adversarial `determines_next_difficulty` of hard despite a 50 percent stage-1
score. -/
theorem calculateSectionFinalScore_recomputes_branch_witness :
    ∃ sec, calculateSectionFinalScore
        { raw_score := 10, total_questions := 20, percentage := 50,
          module_number := 1, determines_next_difficulty := some Difficulty.hard }
        (calculateModuleScore 12 20 "Math" 2 none) "Math" = Except.ok sec ∧
      sec.module_2_difficulty = determineModule2Difficulty (50 : ℚ) ∧
      calculateSectionScore ((10 + 12 : ℕ) : ℤ) "Math" sec.module_2_difficulty =
        Except.ok sec.scaled_score :=
  calculateSectionFinalScore_recomputes_branch
    { raw_score := 10, total_questions := 20, percentage := 50,
      module_number := 1, determines_next_difficulty := some Difficulty.hard }
    (calculateModuleScore 12 20 "Math" 2 none) "Math" (Or.inr rfl)

/-- C9: `calculateTotalSATScore` sums the two scaled scores with no clamping,
the total is order-independent, and scaled scores 720 and 650 give 1370. -/
theorem calculateTotalSATScore_sum (A B : SectionFinalScore) :
    (calculateTotalSATScore A B).total_score = A.scaled_score + B.scaled_score ∧
    (calculateTotalSATScore A B).total_score =
      (calculateTotalSATScore B A).total_score ∧
    (A.scaled_score = 720 → B.scaled_score = 650 →
      (calculateTotalSATScore A B).total_score = 1370) := by
  refine ⟨rfl, Nat.add_comm _ _, fun h1 h2 => ?_⟩
  show A.scaled_score + B.scaled_score = 1370
  rw [h1, h2]

/-- Witness for C9 on sections with scaled scores 720 and 650. -/
theorem calculateTotalSATScore_sum_witness :
    (calculateTotalSATScore (sampleSectionScore 720)
      (sampleSectionScore 650)).total_score = 1370 :=
  (calculateTotalSATScore_sum (sampleSectionScore 720) (sampleSectionScore 650)).2.2
    rfl rfl

/-- C10: `calculateModuleScore` never reads its `module1Percentage` argument,
so any two values of it give identical outputs (two-run noninterference). -/
theorem calculateModuleScore_ignores_module1Percentage (c t : ℕ) (s : String)
    (m : ℕ) (p1 p2 : Option ℚ) :
    calculateModuleScore c t s m p1 = calculateModuleScore c t s m p2 := rfl

end SATScoring
